import Mathlib

/-!
Shallow embedding of the task-organizer application core
(`src/types.ts` and the `App` component in `src/unnamed/part_000`).

The store state is a list of tasks plus a notification slot and an admin
flag; the derived views (`sortedTasks`, the overdue/today partition,
`productivityPercentage`) are pure functions of the task list and the
current time.  JavaScript date parsing (`new Date(s)`) is modelled by an
abstract `parse : String → Option Int` returning the epoch-milliseconds
value, with `none` standing for an invalid date (NaN): in JavaScript
`NaN < now` is `false`, which the embedding reflects by returning `false`
when `parse` yields `none`.  `Date` values and `Date.now()` timestamps are
epoch milliseconds, modelled as `Int`.
-/

namespace TaskApp

/-- JavaScript's string-trimming whitespace class, restricted to the ASCII
whitespace characters (the due-date and task-text inputs of this app are
ASCII-plus-Arabic text; the extra Unicode space code points behave the
same way and are omitted). -/
def isJsWhitespace (c : Char) : Bool :=
  c = ' ' || c = '\t' || c = '\n' || c = '\r' || c = '\x0b' || c = '\x0c'

/-- JavaScript's `text.trim()`: drop leading and trailing whitespace. -/
def jsTrim (s : String) : String :=
  String.mk (((s.toList.dropWhile isJsWhitespace).reverse.dropWhile
    isJsWhitespace).reverse)

/-- JavaScript's `text.toLowerCase()`, modelled character-wise with
`Char.toLower` (ASCII case folding; the reserved commands `admin` and
`unadmin` are ASCII). -/
def jsToLower (s : String) : String :=
  String.mk (s.toList.map Char.toLower)

/-- The `TaskPriority` type from `src/types.ts`. -/
inductive TaskPriority where
  | high
  | medium
  | low
deriving DecidableEq, Repr

/-- The `Task` record from `src/types.ts`: `dueDate` is the optional calendar-date
string, `createdAt` the epoch-milliseconds creation timestamp. -/
structure Task where
  id : String
  text : String
  completed : Bool
  createdAt : Int
  priority : TaskPriority
  dueDate : Option String
deriving DecidableEq, Repr

/-- The component state touched by `addTask`: the task collection, the
single notification slot and the ephemeral admin flag. -/
structure AppState where
  tasks : List Task
  notification : Option String
  isAdmin : Bool
deriving DecidableEq, Repr

/-- The `priorityOrder` map used by both sort comparators:
`{ high: 1, medium: 2, low: 3 }`. -/
def priorityOrder : TaskPriority → Nat
  | .high => 1
  | .medium => 2
  | .low => 3

/-- The `addTask(text, priority, dueDate?)` handler.  The fresh id
(`crypto.randomUUID()`) and the current time (`Date.now()`) are passed in
as parameters `newId` and `now`.  `dueDate: dueDate || undefined`
normalizes an absent or empty-string due date to `none`. -/
def addTask (newId : String) (now : Int) (text : String)
    (priority : TaskPriority) (dueDate : Option String)
    (s : AppState) : AppState :=
  let trimmedText := jsTrim text
  if trimmedText = "" then s
  else
    let commandText := jsToLower trimmedText
    if commandText = "admin" then
      { s with isAdmin := true, notification := some "وضع المسؤول مفعل!" }
    else if commandText = "unadmin" then
      { s with isAdmin := false,
               notification := some "تم إلغاء تفعيل وضع المسؤول." }
    else if s.tasks.any
        (fun task => jsToLower (jsTrim task.text) = jsToLower trimmedText) then
      { s with notification := some "هذه المهمة موجودة بالفعل!" }
    else
      { s with tasks :=
          { id := newId
            text := trimmedText
            completed := false
            createdAt := now
            priority := priority
            dueDate := match dueDate with
              | none => none
              | some d => if d = "" then none else some d } :: s.tasks }

/-- The `toggleTask(id)` handler: flip `completed` on every task whose id matches. -/
def toggleTask (id : String) (tasks : List Task) : List Task :=
  tasks.map (fun task =>
    if task.id = id then { task with completed := !task.completed } else task)

/-- The `deleteTask(id)` handler: keep the tasks whose id differs. -/
def deleteTask (id : String) (tasks : List Task) : List Task :=
  tasks.filter (fun task => task.id ≠ id)

/-- The comparator of `sortedTasks` as a "less or equal" relation: task
`a` may precede task `b` when the comparator value
`priorityOrder[a.priority] - priorityOrder[b.priority]`, with the tie
broken by `b.createdAt - a.createdAt`, is not positive. -/
def taskLE (a b : Task) : Prop :=
  priorityOrder a.priority < priorityOrder b.priority ∨
    (priorityOrder a.priority = priorityOrder b.priority ∧
      b.createdAt ≤ a.createdAt)

instance : DecidableRel taskLE := fun a b => by
  unfold taskLE; exact inferInstance

/-- The `sortedTasks` view: `[...tasks].sort(comparator)`.  The ECMAScript sort is
stable, and `taskLE` is total and transitive, so the sorted result is the
unique stably-sorted rearrangement; it is modelled by the stable
`List.insertionSort`. -/
def sortedTasks (tasks : List Task) : List Task :=
  List.insertionSort taskLE tasks

/-- The `isOverdue` test inside the partition `useMemo`:
`!task.completed && task.dueDate && new Date(task.dueDate) < currentTime`.
`task.dueDate` is falsy when absent or the empty string; an unparsable
date gives NaN, and `NaN < currentTime` is `false`. -/
def isOverdue (parse : String → Option Int) (now : Int) (t : Task) : Bool :=
  !t.completed &&
    (match t.dueDate with
     | none => false
     | some s =>
       decide (s ≠ "") &&
         (match parse s with
          | none => false
          | some d => decide (d < now)))

/-- The due-date sort key `new Date(a.dueDate!).getTime()` of the overdue
re-sort.  JavaScript yields NaN for an absent or invalid due date, which
makes the comparator result unspecified there; the embedding uses 0 in
that case.  No claim depends on the relative order of the overdue list,
only on its membership, which is the same for every choice. -/
def dueTime (parse : String → Option Int) (t : Task) : Int :=
  match t.dueDate with
  | none => 0
  | some s => (parse s).getD 0

/-- The comparator of the overdue re-sort as a "less or equal" relation:
priority rank first, then ascending due-date time. -/
def overdueLE (parse : String → Option Int) (a b : Task) : Prop :=
  priorityOrder a.priority < priorityOrder b.priority ∨
    (priorityOrder a.priority = priorityOrder b.priority ∧
      dueTime parse a ≤ dueTime parse b)

instance (parse : String → Option Int) : DecidableRel (overdueLE parse) :=
  fun a b => by unfold overdueLE; exact inferInstance

/-- The partition `useMemo`: walk `sortedTasks` pushing each task onto the
overdue or the today list according to `isOverdue`, then re-sort the
overdue list by priority rank and ascending due date (again a stable
ECMAScript sort, modelled by the stable `List.insertionSort`).  Returns
`(todayTasks, overdueTasks)`. -/
def splitTasks (parse : String → Option Int) (now : Int)
    (tasks : List Task) : List Task × List Task :=
  let sorted := sortedTasks tasks
  let overdueList := sorted.filter (isOverdue parse now)
  let todayList := sorted.filter (fun t => !(isOverdue parse now t))
  (todayList, List.insertionSort (overdueLE parse) overdueList)

/-- The `todayTasks` view (the "upcoming" list). -/
def todayTasks (parse : String → Option Int) (now : Int)
    (tasks : List Task) : List Task :=
  (splitTasks parse now tasks).1

/-- The `overdueTasks` view (the "overdue" list, re-sorted). -/
def overdueTasks (parse : String → Option Int) (now : Int)
    (tasks : List Task) : List Task :=
  (splitTasks parse now tasks).2

/-- Number of binary digits of `n` (`⌊log2 n⌋ + 1` for positive `n`),
via fuel-based structural recursion so that the kernel can evaluate it. -/
def bitlenAux : Nat → Nat → Nat
  | 0, _ => 0
  | fuel + 1, n => if n = 0 then 0 else bitlenAux fuel (n / 2) + 1

/-- Number of binary digits of `n` (`n` itself is always enough fuel). -/
def bitlen (n : Nat) : Nat := bitlenAux n n

/-- Integer rounding of `a / b` to nearest, ties to even — the IEEE-754
rounding of a quotient whose target precision puts the last kept bit at
the integer position. -/
def rneDiv (a b : Nat) : Nat :=
  let q := a / b
  let r := a % b
  if 2 * r < b then q
  else if b < 2 * r then q + 1
  else if q % 2 = 0 then q else q + 1

/-- The source expression `Math.round((completedTasks / allTasks.length)
* 100)` evaluated, as the program does, in IEEE-754 binary64: the
division `c / n` rounds to nearest (ties to even) onto a 53-bit
significand `x = m * 2^(-s)`, the multiplication by 100 rounds the exact
product back onto 53 bits giving `y`, and ECMAScript `Math.round` takes
the integer nearest to the exact value of the double `y`, ties toward
`+∞`, i.e. `⌊y + 1/2⌋`.  This integer-arithmetic model is exact for the
program's reachable inputs `0 ≤ c ≤ n < 2^32` (array lengths), which all
lie in the normal range, so subnormals and overflow cannot arise. -/
def jsProductivityRound (c n : Nat) : Nat :=
  if c = 0 ∨ n = 0 then 0
  else
    let s1 := 52 + bitlen n - bitlen c
    let s := if c * 2 ^ s1 < n * 2 ^ 52 then s1 + 1 else s1
    let m := rneDiv (c * 2 ^ s) n
    let x := if m = 2 ^ 53 then (2 ^ 52, s - 1) else (m, s)
    let t := 100 * x.1
    let d := bitlen t - 53
    let m2 := rneDiv t (2 ^ d)
    let y := if m2 = 2 ^ 53 then (2 ^ 52, d + 1) else (m2, d)
    let e := x.2 - y.2
    (y.1 + 2 ^ (e - 1)) / 2 ^ e

/-- The `productivityPercentage` view: 100 when `todayTasks ++
overdueTasks` is empty, else `Math.round((completedToday /
allTasks.length) * 100)` computed in binary64 doubles, modelled exactly
by `jsProductivityRound`.  Note this is NOT always the exact rational
rounding `round(100 * c / n)`: at `c = 23, n = 40` the double product is
`57.49999999999999`, so the program yields 57 where the exact value 57.5
would round to 58. -/
def productivityPercentage (parse : String → Option Int) (now : Int)
    (tasks : List Task) : Nat :=
  let today := todayTasks parse now tasks
  let overdue := overdueTasks parse now tasks
  let n := today.length + overdue.length
  if n = 0 then 100
  else
    let c := (today.filter (fun t => t.completed)).length
    jsProductivityRound c n

/-- The `tasks` `useState` initializer: read the stored `tasks` entry
(`none` models `localStorage.getItem` returning `null`); a falsy value
(absent or empty string) means no saved tasks; `JSON.parse` is modelled
by the abstract `parse` into `Except`, and a parse error is caught,
logged via `console.error` (the second component collects the diagnostic
messages) and replaced by the empty collection. -/
def loadTasks (parse : String → Except String (List Task))
    (saved : Option String) : List Task × List String :=
  match saved with
  | none => ([], [])
  | some s =>
    if s = "" then ([], [])
    else
      match parse s with
      | .ok ts => (ts, [])
      | .error e => ([], ["Could not parse tasks from localStorage: " ++ e])

/-- The frame relation of `toggleTask`: the left task agrees with the
right one on every field except possibly `completed`, and agrees
entirely when the right task's id is not the toggled one. -/
def toggleFrame (id : String) (a b : Task) : Prop :=
  a.id = b.id ∧ a.text = b.text ∧ a.createdAt = b.createdAt ∧
    a.priority = b.priority ∧ a.dueDate = b.dueDate ∧ (b.id ≠ id → a = b)

lemma toggleFrame_elem (id : String) (t : Task) :
    toggleFrame id
      (if t.id = id then { t with completed := !t.completed } else t) t := by
  by_cases h : t.id = id <;> simp [toggleFrame, h]

lemma mem_sortedTasks {t : Task} {ts : List Task} :
    t ∈ sortedTasks ts ↔ t ∈ ts :=
  (List.perm_insertionSort taskLE ts).mem_iff

lemma mem_overdueTasks {parse : String → Option Int} {now : Int} {t : Task}
    {ts : List Task} :
    t ∈ overdueTasks parse now ts ↔ t ∈ ts ∧ isOverdue parse now t = true := by
  unfold overdueTasks splitTasks
  rw [(List.perm_insertionSort _ _).mem_iff, List.mem_filter, mem_sortedTasks]

lemma mem_todayTasks {parse : String → Option Int} {now : Int} {t : Task}
    {ts : List Task} :
    t ∈ todayTasks parse now ts ↔ t ∈ ts ∧ isOverdue parse now t = false := by
  unfold todayTasks splitTasks
  rw [List.mem_filter, mem_sortedTasks]
  simp [Bool.not_eq_true']

/-- C6: toggling an id twice restores every task (in particular every
completion flag) to its original value, a single toggle never changes the
collection size, and toggling an id that no task carries is a no-op. -/
theorem toggleTask_involutive_length_noop (id : String) (ts : List Task) :
    toggleTask id (toggleTask id ts) = ts
      ∧ (toggleTask id ts).length = ts.length
      ∧ ((∀ t ∈ ts, t.id ≠ id) → toggleTask id ts = ts) := by
  refine ⟨?_, by simp [toggleTask], ?_⟩
  · unfold toggleTask
    rw [List.map_map]
    induction ts with
    | nil => rfl
    | cons t ts ih =>
      rw [List.map_cons, ih]
      congr 1
      obtain ⟨i, x, c, ca, p, d⟩ := t
      by_cases h : i = id
      · subst h; simp [Function.comp]
      · simp [Function.comp, h]
  · induction ts with
    | nil => intro _; rfl
    | cons t ts ih =>
      intro h
      have h1 : t.id ≠ id := h t (List.mem_cons_self t ts)
      simp only [toggleTask, List.map_cons, if_neg h1] at *
      exact congrArg (t :: ·) (ih fun x hx => h x (List.mem_cons_of_mem _ hx))

/-- Witness for C6 at a concrete collection. -/
theorem toggleTask_involutive_length_noop_witness :
    toggleTask "a" (toggleTask "a"
        [{ id := "a", text := "x", completed := false, createdAt := 0,
           priority := .high, dueDate := none }]) =
      [{ id := "a", text := "x", completed := false, createdAt := 0,
         priority := .high, dueDate := none }]
    ∧ (toggleTask "a"
        [{ id := "a", text := "x", completed := false, createdAt := 0,
           priority := .high, dueDate := none }]).length = 1
    ∧ toggleTask "b"
        [{ id := "a", text := "x", completed := false, createdAt := 0,
           priority := .high, dueDate := none }] =
      [{ id := "a", text := "x", completed := false, createdAt := 0,
         priority := .high, dueDate := none }] :=
  ⟨(toggleTask_involutive_length_noop "a" _).1,
   (toggleTask_involutive_length_noop "a" _).2.1,
   (toggleTask_involutive_length_noop "b" _).2.2 (by decide)⟩

/-- C9: `toggleTask` changes at most the `completed` field of the
matching task, leaves non-matching tasks entirely unchanged and keeps the
order of the collection; `deleteTask` keeps the remaining tasks unchanged
and in their original relative order (a sublist) and retains every task
whose id differs. -/
theorem toggleTask_deleteTask_frame (id : String) (ts : List Task) :
    List.Forall₂ (toggleFrame id) (toggleTask id ts) ts
      ∧ (deleteTask id ts).Sublist ts
      ∧ (∀ t ∈ ts, t.id ≠ id → t ∈ deleteTask id ts) := by
  refine ⟨?_, List.filter_sublist ts, ?_⟩
  · induction ts with
    | nil => exact .nil
    | cons t ts ih => exact .cons (toggleFrame_elem id t) ih
  · intro t ht hne
    exact List.mem_filter.2 ⟨ht, by simp [hne]⟩

/-- Witness for C9 at a concrete collection. -/
theorem toggleTask_deleteTask_frame_witness :
    List.Forall₂ (toggleFrame "a")
      (toggleTask "a"
        [{ id := "a", text := "x", completed := false, createdAt := 0,
           priority := .high, dueDate := none },
         { id := "b", text := "y", completed := true, createdAt := 1,
           priority := .low, dueDate := none }])
      [{ id := "a", text := "x", completed := false, createdAt := 0,
         priority := .high, dueDate := none },
       { id := "b", text := "y", completed := true, createdAt := 1,
         priority := .low, dueDate := none }]
    ∧ (deleteTask "a"
        [{ id := "a", text := "x", completed := false, createdAt := 0,
           priority := .high, dueDate := none },
         { id := "b", text := "y", completed := true, createdAt := 1,
           priority := .low, dueDate := none }]).Sublist
        [{ id := "a", text := "x", completed := false, createdAt := 0,
           priority := .high, dueDate := none },
         { id := "b", text := "y", completed := true, createdAt := 1,
           priority := .low, dueDate := none }]
    ∧ ({ id := "b", text := "y", completed := true, createdAt := 1,
         priority := .low, dueDate := none } : Task) ∈ deleteTask "a"
        [{ id := "a", text := "x", completed := false, createdAt := 0,
           priority := .high, dueDate := none },
         { id := "b", text := "y", completed := true, createdAt := 1,
           priority := .low, dueDate := none }] :=
  ⟨(toggleTask_deleteTask_frame "a" _).1,
   (toggleTask_deleteTask_frame "a" _).2.1,
   (toggleTask_deleteTask_frame "a" _).2.2 _ (by decide) (by decide)⟩

/-- C7: loading stored tasks is total, and on malformed stored data the
parse error is caught, a diagnostic is logged, and the collection falls
back to empty. -/
theorem loadTasks_malformed (parse : String → Except String (List Task))
    (s e : String) (hne : s ≠ "") (herr : parse s = .error e) :
    loadTasks parse (some s) =
      ([], ["Could not parse tasks from localStorage: " ++ e]) := by
  simp [loadTasks, hne, herr]

/-- Witness for C7 at a concrete malformed store. -/
theorem loadTasks_malformed_witness :
    loadTasks (fun _ => .error "bad json") (some "not-json") =
      ([], ["Could not parse tasks from localStorage: " ++ "bad json"]) :=
  loadTasks_malformed (fun _ => .error "bad json") "not-json" "bad json"
    (by decide) rfl

lemma jsToLower_nonempty {text : String} {w : String}
    (h : jsToLower (jsTrim text) = w) (hw : w ≠ "") : jsTrim text ≠ "" := by
  intro he
  rw [he] at h
  exact hw (h.symm.trans rfl)

/-- C5: an input that trims to `admin` up to letter case sets the admin
flag, emits a notification and creates no task; likewise `unadmin` clears
the flag, emits a notification and creates no task. -/
theorem addTask_admin_commands (newId : String) (now : Int) (text : String)
    (priority : TaskPriority) (dueDate : Option String) (s : AppState) :
    (jsToLower (jsTrim text) = "admin" →
        (addTask newId now text priority dueDate s).tasks = s.tasks
          ∧ (addTask newId now text priority dueDate s).isAdmin = true
          ∧ (addTask newId now text priority dueDate s).notification.isSome =
              true)
      ∧ (jsToLower (jsTrim text) = "unadmin" →
        (addTask newId now text priority dueDate s).tasks = s.tasks
          ∧ (addTask newId now text priority dueDate s).isAdmin = false
          ∧ (addTask newId now text priority dueDate s).notification.isSome =
              true) := by
  constructor
  · intro h
    have hne : jsTrim text ≠ "" := jsToLower_nonempty h (by decide)
    simp [addTask, hne, h]
  · intro h
    have hne : jsTrim text ≠ "" := jsToLower_nonempty h (by decide)
    have hnadmin : jsToLower (jsTrim text) ≠ "admin" := by
      rw [h]; decide
    simp [addTask, hne, h, hnadmin]

/-- Witness for C5 at the concrete inputs `" ADmin "` and `"unAdmin"`. -/
theorem addTask_admin_commands_witness :
    ((addTask "i" 0 " ADmin " .low none
        { tasks := [], notification := none, isAdmin := false }).tasks = []
      ∧ (addTask "i" 0 " ADmin " .low none
          { tasks := [], notification := none, isAdmin := false }).isAdmin =
        true
      ∧ (addTask "i" 0 " ADmin " .low none
          { tasks := [], notification := none,
            isAdmin := false }).notification.isSome = true)
    ∧ ((addTask "i" 0 "unAdmin" .low none
        { tasks := [], notification := none, isAdmin := true }).tasks = []
      ∧ (addTask "i" 0 "unAdmin" .low none
          { tasks := [], notification := none, isAdmin := true }).isAdmin =
        false
      ∧ (addTask "i" 0 "unAdmin" .low none
          { tasks := [], notification := none,
            isAdmin := true }).notification.isSome = true) :=
  ⟨(addTask_admin_commands "i" 0 " ADmin " .low none
      { tasks := [], notification := none, isAdmin := false }).1 (by decide),
   (addTask_admin_commands "i" 0 "unAdmin" .low none
      { tasks := [], notification := none, isAdmin := true }).2 (by decide)⟩

/-- C3: when some active task's trimmed, case-folded text equals the
input's trimmed, case-folded text, `addTask` leaves the collection
unchanged (no task is created) and a notification is emitted. -/
theorem addTask_duplicate_rejected (newId : String) (now : Int)
    (text : String) (priority : TaskPriority) (dueDate : Option String)
    (s : AppState) (t : Task) (hmem : t ∈ s.tasks)
    (_hactive : t.completed = false)
    (htext : jsToLower (jsTrim t.text) = jsToLower (jsTrim text))
    (hne : jsTrim text ≠ "") :
    (addTask newId now text priority dueDate s).tasks = s.tasks
      ∧ (addTask newId now text priority dueDate s).notification.isSome =
          true := by
  by_cases h1 : jsToLower (jsTrim text) = "admin"
  · simp [addTask, hne, h1]
  by_cases h2 : jsToLower (jsTrim text) = "unadmin"
  · simp [addTask, hne, h1, h2]
  have hany : (s.tasks.any
      (fun task => jsToLower (jsTrim task.text) = jsToLower (jsTrim text))) =
        true :=
    List.any_eq_true.2 ⟨t, hmem, by simp [htext]⟩
  simp [addTask, hne, h1, h2, hany]

/-- Witness for C3: adding `" BUY milk "` when `"buy Milk"` is already an
active task is rejected with a notification. -/
theorem addTask_duplicate_rejected_witness :
    (addTask "i2" 9 " BUY milk " .low none
        { tasks := [{ id := "i1", text := "buy Milk", completed := false,
                      createdAt := 0, priority := .high, dueDate := none }],
          notification := none, isAdmin := false }).tasks =
      [{ id := "i1", text := "buy Milk", completed := false,
         createdAt := 0, priority := .high, dueDate := none }]
    ∧ (addTask "i2" 9 " BUY milk " .low none
        { tasks := [{ id := "i1", text := "buy Milk", completed := false,
                      createdAt := 0, priority := .high, dueDate := none }],
          notification := none, isAdmin := false }).notification.isSome =
      true :=
  addTask_duplicate_rejected "i2" 9 " BUY milk " .low none
    { tasks := [{ id := "i1", text := "buy Milk", completed := false,
                  createdAt := 0, priority := .high, dueDate := none }],
      notification := none, isAdmin := false }
    { id := "i1", text := "buy Milk", completed := false, createdAt := 0,
      priority := .high, dueDate := none }
    (by decide) rfl (by decide) (by decide)

/-- C10: an `addTask` that reaches the creation branch with an
empty-string due date stores the new task with no due date, and such a
task is never classified overdue at any evaluation time under any date
parser. -/
theorem addTask_empty_dueDate (newId : String) (now : Int) (text : String)
    (priority : TaskPriority) (s : AppState)
    (hne : jsTrim text ≠ "")
    (h1 : jsToLower (jsTrim text) ≠ "admin")
    (h2 : jsToLower (jsTrim text) ≠ "unadmin")
    (hdup : (s.tasks.any
      (fun task => jsToLower (jsTrim task.text) = jsToLower (jsTrim text))) =
        false) :
    ∃ nt, (addTask newId now text priority (some "") s).tasks = nt :: s.tasks
      ∧ nt.dueDate = none
      ∧ ∀ (parse : String → Option Int) (now2 : Int),
          isOverdue parse now2 nt = false := by
  refine ⟨{ id := newId, text := jsTrim text, completed := false,
            createdAt := now, priority := priority, dueDate := none },
    ?_, rfl, ?_⟩
  · simp [addTask, hne, h1, h2, hdup]
  · intro parse now2
    simp [isOverdue]

/-- Witness for C10: adding `"call mom"` with an empty-string due date to
the empty store creates a task without a due date, never overdue. -/
theorem addTask_empty_dueDate_witness :
    ∃ nt, (addTask "i" 7 "call mom" .medium (some "")
        { tasks := [], notification := none, isAdmin := false }).tasks =
        nt :: []
      ∧ nt.dueDate = none
      ∧ ∀ (parse : String → Option Int) (now2 : Int),
          isOverdue parse now2 nt = false :=
  addTask_empty_dueDate "i" 7 "call mom" .medium
    { tasks := [], notification := none, isAdmin := false }
    (by decide) (by decide) (by decide) (by decide)

lemma isOverdue_iff {parse : String → Option Int} {now : Int} {t : Task}
    (hparse : parse "" = none) :
    isOverdue parse now t = true ↔
      t.completed = false
        ∧ ∃ s d, t.dueDate = some s ∧ parse s = some d ∧ d < now := by
  unfold isOverdue
  cases hd : t.dueDate with
  | none => simp
  | some s =>
    by_cases hs : s = ""
    · subst hs
      simp [hparse]
    · cases hp : parse s with
      | none => simp [hs, hp]
      | some d =>
        simp [hs, hp, Bool.and_eq_true, Bool.not_eq_true']

/-- C1: a task of the collection lands in the overdue list iff it is not
completed, carries a due date, and that due date parses to a time
strictly before the evaluation time; every other task of the collection
lands in the upcoming (`todayTasks`) list.  In particular a completed
task is never overdue and a task with no due date is never overdue. -/
theorem overdue_classification (parse : String → Option Int) (now : Int)
    (ts : List Task) (t : Task) (hparse : parse "" = none) :
    (t ∈ overdueTasks parse now ts ↔
        t ∈ ts ∧ t.completed = false
          ∧ ∃ s d, t.dueDate = some s ∧ parse s = some d ∧ d < now)
      ∧ (t ∈ todayTasks parse now ts ↔
        t ∈ ts ∧ ¬(t.completed = false
          ∧ ∃ s d, t.dueDate = some s ∧ parse s = some d ∧ d < now)) := by
  constructor
  · rw [mem_overdueTasks, isOverdue_iff hparse]
  · rw [mem_todayTasks]
    have hiff := @isOverdue_iff parse now t hparse
    constructor
    · rintro ⟨hmem, hfalse⟩
      refine ⟨hmem, fun hc => ?_⟩
      rw [hiff.2 hc] at hfalse
      exact absurd hfalse (by decide)
    · rintro ⟨hmem, hnot⟩
      refine ⟨hmem, ?_⟩
      cases hov : isOverdue parse now t with
      | false => rfl
      | true => exact absurd (hiff.1 hov) hnot

/-- Witness for C1: with a parser sending `"2024-01-01"` to time 0 and
evaluation time 1, an incomplete task due `"2024-01-01"` is in the
overdue list, and a completed one is in the upcoming list. -/
theorem overdue_classification_witness :
    ({ id := "a", text := "x", completed := false, createdAt := 0,
       priority := .high, dueDate := some "2024-01-01" } : Task) ∈
      overdueTasks (fun s => if s = "2024-01-01" then some 0 else none) 1
        [{ id := "a", text := "x", completed := false, createdAt := 0,
           priority := .high, dueDate := some "2024-01-01" },
         { id := "b", text := "y", completed := true, createdAt := 1,
           priority := .high, dueDate := some "2024-01-01" }]
    ∧ ({ id := "b", text := "y", completed := true, createdAt := 1,
         priority := .high, dueDate := some "2024-01-01" } : Task) ∈
      todayTasks (fun s => if s = "2024-01-01" then some 0 else none) 1
        [{ id := "a", text := "x", completed := false, createdAt := 0,
           priority := .high, dueDate := some "2024-01-01" },
         { id := "b", text := "y", completed := true, createdAt := 1,
           priority := .high, dueDate := some "2024-01-01" }] :=
  ⟨(overdue_classification (fun s => if s = "2024-01-01" then some 0 else none)
      1 _ _ (by decide)).1.2
      ⟨by decide, rfl, "2024-01-01", 0, rfl, by decide, by decide⟩,
   (overdue_classification (fun s => if s = "2024-01-01" then some 0 else none)
      1 _ _ (by decide)).2.2
      ⟨by decide, by rintro ⟨h, -⟩; exact absurd h (by decide)⟩⟩

/-- C8: the overdue list and the upcoming list partition the collection:
their concatenation is a permutation of the collection, and no task
belongs to both. -/
theorem overdue_today_partition (parse : String → Option Int) (now : Int)
    (ts : List Task) :
    (overdueTasks parse now ts ++ todayTasks parse now ts).Perm ts
      ∧ ∀ t, t ∈ overdueTasks parse now ts → t ∉ todayTasks parse now ts := by
  constructor
  · have h1 : (overdueTasks parse now ts ++ todayTasks parse now ts).Perm
        ((sortedTasks ts).filter (isOverdue parse now) ++
          (sortedTasks ts).filter (fun t => !(isOverdue parse now t))) :=
      (List.perm_insertionSort _ _).append (List.Perm.refl _)
    exact h1.trans ((List.filter_append_perm _ _).trans
      (List.perm_insertionSort taskLE ts))
  · intro t hov htoday
    have h1 := (mem_overdueTasks.1 hov).2
    have h2 := (mem_todayTasks.1 htoday).2
    rw [h1] at h2
    exact absurd h2 (by decide)

/-- Witness for C8 at a concrete two-task collection. -/
theorem overdue_today_partition_witness :
    (overdueTasks (fun s => if s = "2024-01-01" then some 0 else none) 1
        [{ id := "a", text := "x", completed := false, createdAt := 0,
           priority := .high, dueDate := some "2024-01-01" },
         { id := "b", text := "y", completed := true, createdAt := 1,
           priority := .high, dueDate := some "2024-01-01" }] ++
      todayTasks (fun s => if s = "2024-01-01" then some 0 else none) 1
        [{ id := "a", text := "x", completed := false, createdAt := 0,
           priority := .high, dueDate := some "2024-01-01" },
         { id := "b", text := "y", completed := true, createdAt := 1,
           priority := .high, dueDate := some "2024-01-01" }]).Perm
      [{ id := "a", text := "x", completed := false, createdAt := 0,
         priority := .high, dueDate := some "2024-01-01" },
       { id := "b", text := "y", completed := true, createdAt := 1,
         priority := .high, dueDate := some "2024-01-01" }]
    ∧ ({ id := "a", text := "x", completed := false, createdAt := 0,
         priority := .high, dueDate := some "2024-01-01" } : Task) ∉
      todayTasks (fun s => if s = "2024-01-01" then some 0 else none) 1
        [{ id := "a", text := "x", completed := false, createdAt := 0,
           priority := .high, dueDate := some "2024-01-01" },
         { id := "b", text := "y", completed := true, createdAt := 1,
           priority := .high, dueDate := some "2024-01-01" }] :=
  ⟨(overdue_today_partition
      (fun s => if s = "2024-01-01" then some 0 else none) 1 _).1,
   (overdue_today_partition
      (fun s => if s = "2024-01-01" then some 0 else none) 1 _).2 _
      (by decide)⟩

instance : IsTotal Task taskLE :=
  ⟨fun a b => by unfold taskLE; omega⟩

instance : IsTrans Task taskLE :=
  ⟨fun a b c => by unfold taskLE; omega⟩

/-- C4: the displayed order is a permutation of the collection, pairwise
ascending by priority rank with ties broken by descending creation
timestamp; on the concrete example of priorities
`[low, high, medium, high]` created at increasing timestamps it yields
`[high(newest), high(older), medium, low]`. -/
theorem sortedTasks_spec (ts : List Task) :
    (sortedTasks ts).Perm ts
      ∧ (sortedTasks ts).Pairwise (fun a b =>
          priorityOrder a.priority < priorityOrder b.priority ∨
            (priorityOrder a.priority = priorityOrder b.priority ∧
              b.createdAt ≤ a.createdAt))
      ∧ sortedTasks
          [{ id := "1", text := "w", completed := false, createdAt := 1,
             priority := .low, dueDate := none },
           { id := "2", text := "x", completed := false, createdAt := 2,
             priority := .high, dueDate := none },
           { id := "3", text := "y", completed := false, createdAt := 3,
             priority := .medium, dueDate := none },
           { id := "4", text := "z", completed := false, createdAt := 4,
             priority := .high, dueDate := none }] =
        [{ id := "4", text := "z", completed := false, createdAt := 4,
           priority := .high, dueDate := none },
         { id := "2", text := "x", completed := false, createdAt := 2,
           priority := .high, dueDate := none },
         { id := "3", text := "y", completed := false, createdAt := 3,
           priority := .medium, dueDate := none },
         { id := "1", text := "w", completed := false, createdAt := 1,
           priority := .low, dueDate := none }] :=
  ⟨List.perm_insertionSort taskLE ts,
   List.sorted_insertionSort taskLE ts,
   by decide⟩

lemma natRoundDiv_eq_floor (c n : ℕ) (hn : n ≠ 0) :
    (200 * c + n) / (2 * n) = ⌊100 * (c : ℚ) / (n : ℚ) + 1 / 2⌋₊ := by
  have hn' : (n : ℚ) ≠ 0 := Nat.cast_ne_zero.2 hn
  have hq : 100 * (c : ℚ) / (n : ℚ) + 1 / 2 =
      ((200 * c + n : ℕ) : ℚ) / ((2 * n : ℕ) : ℚ) := by
    push_cast
    field_simp
    ring
  rw [hq, Nat.floor_div_nat, Nat.floor_natCast]

/-- A date parser for the concrete productivity examples: `"2024-01-01"`
parses to epoch time 0, everything else is invalid. -/
def exampleParse : String → Option Int :=
  fun s => if s = "2024-01-01" then some 0 else none

/-- A 40-task collection: 23 completed upcoming tasks, 16 incomplete
upcoming tasks and 1 overdue task at evaluation time 1. -/
def fortyTasks : List Task :=
  List.replicate 23
      { id := "a", text := "x", completed := true, createdAt := 0,
        priority := .high, dueDate := none } ++
    List.replicate 16
      { id := "b", text := "y", completed := false, createdAt := 0,
        priority := .high, dueDate := none } ++
    [{ id := "c", text := "z", completed := false, createdAt := 0,
       priority := .high, dueDate := some "2024-01-01" }]

/-- C2 is false of the code as stated: on a collection with 39 upcoming
tasks (23 of them completed) and 1 overdue task, the program computes 57
— the binary64 product `(23 / 40) * 100 = 57.49999999999999` lies just
below the half-integer — whereas the claim's exact rounding gives
`round(100 * 23 / 40) = round(57.5) = 58`. -/
theorem productivityPercentage_counterexample :
    (todayTasks exampleParse 1 fortyTasks).length = 39
      ∧ (overdueTasks exampleParse 1 fortyTasks).length = 1
      ∧ ((todayTasks exampleParse 1 fortyTasks).filter
          (fun t => t.completed)).length = 23
      ∧ productivityPercentage exampleParse 1 fortyTasks = 57
      ∧ ⌊100 * ((23 : ℕ) : ℚ) / ((40 : ℕ) : ℚ) + 1 / 2⌋₊ = 58 := by
  refine ⟨by decide, by decide, by decide, by decide, ?_⟩
  rw [← natRoundDiv_eq_floor 23 40 (by norm_num)]

/-- C2 (amended): the productivity percentage is 100 when there are no
tasks, and otherwise `Math.round((c / (U + O)) * 100)` computed in
binary64 doubles with `c` the completed count among upcoming tasks; on
2 upcoming tasks (1 completed) and 1 overdue task it is 33, and on 8
upcoming tasks (1 completed; the double product is exactly 12.5) the
half rounds up to 13. -/
theorem productivityPercentage_spec (parse : String → Option Int)
    (now : Int) (ts : List Task) :
    (productivityPercentage parse now ts =
      if (todayTasks parse now ts).length + (overdueTasks parse now ts).length
          = 0 then 100
      else
        jsProductivityRound
          ((todayTasks parse now ts).filter (fun t => t.completed)).length
          ((todayTasks parse now ts).length +
            (overdueTasks parse now ts).length))
      ∧ productivityPercentage exampleParse 1
          [{ id := "a", text := "x", completed := true, createdAt := 0,
             priority := .high, dueDate := none },
           { id := "b", text := "y", completed := false, createdAt := 1,
             priority := .high, dueDate := none },
           { id := "c", text := "z", completed := false, createdAt := 2,
             priority := .high, dueDate := some "2024-01-01" }] = 33
      ∧ productivityPercentage (fun _ => none) 0
          ({ id := "a", text := "x", completed := true, createdAt := 0,
             priority := .high, dueDate := none } ::
            List.replicate 7
              { id := "b", text := "y", completed := false, createdAt := 0,
                priority := .high, dueDate := none }) = 13 := by
  refine ⟨?_, by decide, by decide⟩
  by_cases h : (todayTasks parse now ts).length +
      (overdueTasks parse now ts).length = 0
  · simp [productivityPercentage, h]
  · simp [productivityPercentage, h]

end TaskApp
